import Mathlib

/-!
Verification of the whatsapp-export-analysis repository.

Shallow embedding of the Python sources (`data_load.py`, `app.py`,
`txt_export.py`) as executable Lean definitions, followed by theorems
settling the specification claims about them.

Strings are modelled as `List Char` (`Str`); pandas data frames as lists
of structure rows; nullable (NaN/None) columns as `Option`; the sqlite
file and the contacts file as an `Env` record where `none` means the
file is absent on disk.
-/

/-- Python strings modelled as lists of characters. -/
abbrev Str := List Char

/-- ASCII model of the whitespace set removed by Python `str.strip()`. -/
def pyIsSpace (c : Char) : Bool :=
  c == ' ' || c == '\t' || c == '\n' || c == '\r' || c == '\x0b' || c == '\x0c'

/-- Python `str.strip()`: drop leading and trailing whitespace. -/
def pyStrip (s : Str) : Str :=
  ((s.dropWhile pyIsSpace).reverse.dropWhile pyIsSpace).reverse

/-- `phone.replace('+', '').replace("-", "")` from `data_load.py`:
removes every occurrence of `'+'` and `'-'`. -/
def stripPM (s : Str) : Str :=
  s.filter (fun c => !(c == '+') && !(c == '-'))

/-- `normalize_phone` from `data_load.py` lines 7-13: remove `'+'` and
`'-'`, strip surrounding whitespace, and prepend the country code `"39"`
when the stripped result has exactly 10 characters. -/
def normalize_phone (phone : Str) : Str :=
  let num := pyStrip (stripPM phone)
  if num.length = 10 then '3' :: '9' :: num else num

/- ### Data model: msgstore.db tables and the filesystem environment -/

/-- One row of the sqlite `jid` table (projection used by the code:
`SELECT _id, user, server FROM jid`). -/
structure JidRow where
  jid_id : Int
  user : Str
  server : Str

/-- One row of the sqlite `chat` table (columns used by the code:
`_id`, `jid_row_id`, `subject`; `subject` is NULL for one-on-one chats). -/
structure ChatRow where
  chat_id : Int
  jid_row_id : Int
  subject : Option Str

/-- One row of the sqlite `message` table (projection used by the code:
`SELECT _id, chat_row_id, from_me, timestamp, received_timestamp,
text_data, sender_jid_row_id FROM message`).  `sender_jid_row_id` is
`none` when the column is NULL or 0 refers to no jid row. -/
structure MessageRow where
  msg_id : Int
  chat_row_id : Int
  from_me : Int
  timestamp : Int
  received_timestamp : Int
  text_data : Option Str
  sender_jid_row_id : Option Int

/-- The message store database. -/
structure Db where
  chat : List ChatRow
  message : List MessageRow
  jid : List JidRow

/-- The files the program reads: `none` models an absent file.
`contacts_vcf` holds the raw lines of `contacts.vcf`. -/
structure Env where
  msgstore : Option Db
  contacts_vcf : Option (List Str)

deriving instance DecidableEq for JidRow
deriving instance DecidableEq for ChatRow
deriving instance DecidableEq for MessageRow
deriving instance DecidableEq for Db
deriving instance DecidableEq for Env

/- ### Python dict as an insertion (last-wins) association list -/

/-- `d.get(k)` for a dict built by successive assignments appended to the
list: the LAST binding of a key wins, as in Python. -/
def dictGet (m : List (Str × Str)) (k : Str) : Option Str :=
  (m.reverse.find? (fun e => e.1 == k)).map (fun e => e.2)

/-- Python `d.get(k, dflt)`. -/
def dictGetD (m : List (Str × Str)) (k : Str) (dflt : Str) : Str :=
  (dictGet m k).getD dflt

/- ### Contact book parsing (`parse_contacts` in data_load.py) -/

/-- Python `s.upper()` (ASCII model). -/
def pyUpper (s : Str) : Str := s.map Char.toUpper

/-- Python `s.startswith(pre)`. -/
def startswith (pre s : Str) : Bool := pre.isPrefixOf s

/-- Python `line.split(':', 1)`: `some (before, after)` when the line
contains a colon (so that `len(parts) == 2`), else `none`. -/
def splitOnceColon (s : Str) : Option (Str × Str) :=
  if s.contains ':' then
    some (s.takeWhile (fun c => !(c == ':')), (s.dropWhile (fun c => !(c == ':'))).drop 1)
  else none

/-- The loop body of `parse_contacts` (data_load.py lines 17-37), folded
over the lines of the file.  State: the dict built so far and
`current_name`.  A `TEL` line adds an entry only when `current_name` is
truthy (non-`None` and non-empty, Python `if current_name:`). -/
def vcfGo : List Str → List (Str × Str) → Option Str → List (Str × Str)
  | [], contacts, _ => contacts
  | rawline :: rest, contacts, current_name =>
    let line := pyStrip rawline
    let u := pyUpper line
    if startswith (("BEGIN:VCARD").toList) u then
      vcfGo rest contacts none
    else if startswith (("FN:").toList) u then
      vcfGo rest contacts (some (pyStrip (line.drop 3)))
    else if startswith (("TEL").toList) u then
      match splitOnceColon line with
      | some pr =>
        let phone := pyStrip pr.2
        let norm_phone := normalize_phone phone
        match current_name with
        | some name =>
          if name.isEmpty then vcfGo rest contacts current_name
          else vcfGo rest (contacts ++ [(norm_phone, name)]) current_name
        | none => vcfGo rest contacts current_name
      | none => vcfGo rest contacts current_name
    else if startswith (("END:VCARD").toList) u then
      vcfGo rest contacts none
    else
      vcfGo rest contacts current_name

/-- `parse_contacts` (data_load.py lines 15-37) on the lines of a file. -/
def parse_contacts (lines : List Str) : List (Str × Str) :=
  vcfGo lines [] none

/-- `load_contacts` (data_load.py lines 39-47): empty mapping when
`contacts.vcf` does not exist. -/
def load_contacts (env : Env) : List (Str × Str) :=
  match env.contacts_vcf with
  | some lines => parse_contacts lines
  | none => []

/- ### Joins (pandas merges) -/

/-- `pd.merge(..., how='left')` on lists: every left row is kept; a left
row with no right match appears once with `none`, and one output row is
produced per matching right row. -/
def leftJoin : List α → List β → (α → β → Bool) → List (α × Option β)
  | [], _, _ => []
  | a :: t, rs, m =>
    (let ms := rs.filter (m a)
     if ms.isEmpty then [(a, none)] else ms.map (fun b => (a, some b))) ++
    leftJoin t rs m

/-- The inner `pd.merge(chats_df, jid_df, left_on='jid_row_id',
right_on='_id')` of `lookup_table`. -/
def innerJoinChatJid : List ChatRow → List JidRow → List (ChatRow × JidRow)
  | [], _ => []
  | c :: t, js =>
    (js.filter (fun j => j.jid_id == c.jid_row_id)).map (fun j => (c, j)) ++
    innerJoinChatJid t js

/- ### lookup_table (data_load.py lines 50-77) -/

/-- One row of the `lookup_table` result
(`chat_id`, `phone_number`, `display_name`). -/
structure LookupRow where
  chat_id : Int
  phone_number : Str
  display_name : Str

deriving instance DecidableEq for LookupRow

/-- Insertion step for the `sort_values('chat_id')` model. -/
def insertLookupSorted (a : LookupRow) : List LookupRow → List LookupRow
  | [] => [a]
  | b :: bs =>
    if a.chat_id ≤ b.chat_id then a :: b :: bs else b :: insertLookupSorted a bs

/-- `result_df.sort_values('chat_id')` modelled as an insertion sort. -/
def sortLookupByChatId (l : List LookupRow) : List LookupRow :=
  l.foldr insertLookupSorted []

/-- The data-frame logic of `lookup_table` given the parsed contact
mapping: join chats to jids, keep non-group chats (`server != 'g.us'`),
normalize the phone and resolve the display name from the contact book,
falling back to the phone itself. -/
def lookup_table_rows (db : Db) (contacts_mapping : List (Str × Str)) : List LookupRow :=
  let one_on_one := (innerJoinChatJid db.chat db.jid).filter
    (fun cj => !(cj.2.server == ("g.us").toList))
  sortLookupByChatId (one_on_one.map (fun cj =>
    let p := normalize_phone cj.2.user
    { chat_id := cj.1.chat_id, phone_number := p,
      display_name := dictGetD contacts_mapping p p }))

/-- `lookup_table` (data_load.py lines 50-77).  It calls
`parse_contacts("contacts.vcf")` unconditionally (line 52), so an absent
contacts file raises `FileNotFoundError`; an absent message store makes
the first `read_sql_query` fail (`sqlite3.connect` silently creates an
empty database file, so the error is a missing table, not a missing
file). -/
def lookup_table (env : Env) : Except String (List LookupRow) :=
  match env.contacts_vcf with
  | none => Except.error ("FileNotFoundError: contacts.vcf")
  | some lines =>
    match env.msgstore with
    | none => Except.error ("no such table: chat")
    | some db => Except.ok (lookup_table_rows db (parse_contacts lines))

/- ### load_whatsapp_data (data_load.py lines 80-129) -/

/-- One row of the canonical message table, in the column order fixed at
data_load.py lines 126-128.  `datetime` is the value of
`pd.to_datetime(timestamp, unit='ms')`, carried as the epoch
milliseconds themselves (the conversion of a non-null integer is
non-null and injective). -/
structure CanonRow where
  msg_id : Int
  chat_row_id : Int
  user : Option Str
  display_name : Option Str
  group : Option Str
  from_me : Int
  text_data : Option Str
  timestamp : Int
  datetime : Int
  sender_jid_row_id : Option Int
  jid_id_joined : Option Int
  server : Option Str

deriving instance DecidableEq for CanonRow

/-- Build one canonical row from a message, its (optional) joined jid
row, its (optional) joined chat row, the contact mapping and the
`lookup_table` result.  This is the `np.where` of data_load.py lines
117-122: a non-null `user` resolves through the contact book with the
raw user string as fallback, otherwise the display name is looked up in
the chat fallback map (`Series.map`, which yields NaN — `none` — when
the chat id is absent from the map). -/
def mkCanonRow (m : MessageRow) (j : Option JidRow) (c : Option ChatRow)
    (contacts_mapping : List (Str × Str)) (lookup : List LookupRow) : CanonRow :=
  let user := j.map JidRow.user
  let display_name : Option Str :=
    match user with
    | some u => some (dictGetD contacts_mapping (normalize_phone u) u)
    | none => (lookup.find? (fun lr => lr.chat_id == m.chat_row_id)).map LookupRow.display_name
  { msg_id := m.msg_id, chat_row_id := m.chat_row_id, user := user,
    display_name := display_name, group := c.bind ChatRow.subject,
    from_me := m.from_me, text_data := m.text_data, timestamp := m.timestamp,
    datetime := m.timestamp, sender_jid_row_id := m.sender_jid_row_id,
    jid_id_joined := j.map JidRow.jid_id, server := j.map JidRow.server }

/-- The data-frame logic of `load_whatsapp_data`: left-join messages to
jids on `sender_jid_row_id = _id`, left-join the result to chats on
`chat_row_id = _id`, then derive `display_name`, `group` and
`datetime` per row. -/
def build_rows (db : Db) (contacts_mapping : List (Str × Str))
    (lookup : List LookupRow) : List CanonRow :=
  let m1 := leftJoin db.message db.jid (fun m j => m.sender_jid_row_id == some j.jid_id)
  let m2 := leftJoin m1 db.chat (fun r c => r.1.chat_row_id == c.chat_id)
  m2.map (fun rc => mkCanonRow rc.1.1 rc.1.2 rc.2 contacts_mapping lookup)

/-- `load_whatsapp_data` (data_load.py lines 80-129).  An absent
`msgstore.db` is NOT detected up front: `sqlite3.connect` creates an
empty database file and the first `read_sql_query` (`SELECT * FROM
chat`, line 86) raises `no such table: chat`.  With the store present
the function still calls `lookup_table()` (line 111), which raises
`FileNotFoundError` when `contacts.vcf` is absent. -/
def load_whatsapp_data (env : Env) : Except String (List CanonRow) :=
  match env.msgstore with
  | none => Except.error ("no such table: chat")
  | some db =>
    match lookup_table env with
    | Except.error e => Except.error e
    | Except.ok lookup => Except.ok (build_rows db (load_contacts env) lookup)

/-- `true` exactly when the pipeline returned a table in which every row
has a non-null `display_name`. -/
def allDisplayNamesNonNull (env : Env) : Bool :=
  match load_whatsapp_data env with
  | Except.ok rows => rows.all (fun r => r.display_name.isSome)
  | Except.error _ => true

/- ### Analytics (app.py) -/

/-- Milliseconds in one day. -/
def msPerDay : Int := 86400000

/-- `dt.date` of a UTC epoch-millisecond timestamp, as a day number
(app.py works on non-negative timestamps, where this is the calendar
day). -/
def dateOfMs (t : Int) : Int := t / msPerDay

/-- `dt.hour` of a UTC epoch-millisecond timestamp. -/
def hourOfMs (t : Int) : Int := (t / 3600000) % 24

/-- The date-range filter of `load_data` (app.py lines 37-39):
inclusive on both ends. -/
def load_data_filter (rows : List CanonRow) (start_date end_date : Int) : List CanonRow :=
  rows.filter (fun r =>
    decide (start_date ≤ dateOfMs r.datetime) && decide (dateOfMs r.datetime ≤ end_date))

/-- Insertion step for sorted deduplicated group keys. -/
def insertIntSorted (a : Int) : List Int → List Int
  | [] => [a]
  | b :: bs => if a ≤ b then a :: b :: bs else b :: insertIntSorted a bs

/-- Collapse adjacent duplicates of a sorted list. -/
def collapseAdjacent : List Int → List Int
  | [] => []
  | [a] => [a]
  | a :: b :: t =>
    if a == b then collapseAdjacent (b :: t) else a :: collapseAdjacent (b :: t)

/-- The sorted distinct keys a pandas `groupby` produces. -/
def sortedKeys (l : List Int) : List Int :=
  collapseAdjacent (l.foldr insertIntSorted [])

/-- `pandas.Series.idxmax`: key of the (first) maximal value; raises
`ValueError` on an empty series. -/
def series_idxmax (keys : List Int) (v : Int → Nat) : Except String Int :=
  match keys with
  | [] => Except.error ("attempt to get argmax of an empty sequence")
  | k :: ks => Except.ok (ks.foldl (fun best k2 => if v k2 > v best then k2 else best) k)

/-- Messages in a given hour bucket. -/
def hour_total (rows : List CanonRow) (h : Int) : Nat :=
  (rows.filter (fun r => hourOfMs r.datetime == h)).length

/-- `peak_hour` (app.py line 223):
`hourly_dist.groupby('hour')['count'].sum().idxmax()`.  The grouped
series is indexed by the hours present in the data; summing the
sent/received split restores the per-hour message count. -/
def peak_hour (rows : List CanonRow) : Except String Int :=
  series_idxmax (sortedKeys (rows.map (fun r => hourOfMs r.datetime))) (hour_total rows)

/-- `msg_length` column (app.py line 350): `text_data.str.len()`,
NaN (`none`) for null text. -/
def msg_length (r : CanonRow) : Option Nat := r.text_data.map List.length

/-- `max_msg` (app.py line 421):
`length_analysis.loc[length_analysis['msg_length'].idxmax()]`.
`idxmax` skips NaN entries and raises `ValueError` when no non-NaN
value exists. -/
def max_msg (rows : List CanonRow) : Except String CanonRow :=
  match rows.filter (fun r => (msg_length r).isSome) with
  | [] => Except.error ("attempt to get argmax of an empty sequence")
  | r0 :: rest =>
    Except.ok (rest.foldl (fun best r =>
      if (msg_length r).getD 0 > (msg_length best).getD 0 then r else best) r0)

/-- `daily` (app.py lines 85-89): group by calendar date, count rows;
the keys are the distinct dates present in the data, ascending. -/
def daily_counts (rows : List CanonRow) : List (Int × Nat) :=
  (sortedKeys (rows.map (fun r => dateOfMs r.datetime))).map
    (fun d => (d, (rows.filter (fun r => dateOfMs r.datetime == d)).length))

/-- `rolling(window=7).mean()` (app.py line 92) over integer counts:
position `i` holds the mean of entries `i-6 .. i` once seven entries
exist, and NaN (`none`) before that. -/
def rolling_mean7 (xs : List Nat) : List (Option ℚ) :=
  (List.range xs.length).map (fun i =>
    if 7 ≤ i + 1
    then some ((((xs.take (i + 1)).drop (i + 1 - 7)).sum : ℚ) / 7)
    else none)

/-- The `ma7` column of `daily` (app.py line 92). -/
def ma7_column (rows : List CanonRow) : List (Option ℚ) :=
  rolling_mean7 ((daily_counts rows).map (fun p => p.2))

/- ### One-on-one response-time analysis (app.py lines 437-459) -/

/-- Lexicographic order used by
`sort_values(['chat_row_id', 'timestamp'])`. -/
def leRowChatTs (a b : CanonRow) : Bool :=
  decide (a.chat_row_id < b.chat_row_id) ||
    (a.chat_row_id == b.chat_row_id && decide (a.timestamp ≤ b.timestamp))

/-- Insertion step of the stable sort for `sort_values`. -/
def insertRowSorted (a : CanonRow) : List CanonRow → List CanonRow
  | [] => [a]
  | b :: bs => if leRowChatTs a b then a :: b :: bs else b :: insertRowSorted a bs

/-- `sort_values(['chat_row_id', 'timestamp'])` as an insertion sort. -/
def sort_chat_ts (l : List CanonRow) : List CanonRow :=
  l.foldr insertRowSorted []

/-- The `groupby('chat_row_id').shift(1)` columns `prev_timestamp` and
`prev_from_me` (app.py lines 444-445): pair each row with the previous
row when it belongs to the same chat (rows are sorted with each chat
contiguous). -/
def with_prev : List CanonRow → Option CanonRow → List (CanonRow × Option CanonRow)
  | [], _ => []
  | r :: rest, prev =>
    (r, match prev with
        | some q => if q.chat_row_id = r.chat_row_id then some q else none
        | none => none) :: with_prev rest (some r)

/-- `response_time_mins` (app.py lines 448-453), carried as the raw
timestamp delta in milliseconds: the source stores
`(timestamp - prev_timestamp) / (1000 * 60)` as a float; dividing by the
positive constant 60000 is order-preserving, so the delta itself is an
exact, order-faithful representative (minutes = delta / 60000). -/
def response_time_delta (r : CanonRow) (prev : Option CanonRow) : Option Int :=
  match prev with
  | some p =>
    if r.from_me ≠ p.from_me then some (r.timestamp - p.timestamp) else none
  | none => none

/-- `response_analysis` (app.py lines 456-459): rows of one-on-one chats
whose response time is `> 0` and `≤ 24*60` minutes, i.e. a delta in
`(0, 86400000]` milliseconds, paired with that delta. -/
def response_analysis (rows : List CanonRow) : List (CanonRow × Int) :=
  ((with_prev (sort_chat_ts (rows.filter (fun r => r.group.isNone))) none).filterMap
    (fun pr => (response_time_delta pr.1 pr.2).map (fun v => (pr.1, v)))).filter
    (fun rv => decide (0 < rv.2) && decide (rv.2 ≤ 1440 * 60000))

/- ### txt_export.py -/

/-- ASCII model of Python `str.isalnum()`. -/
def pyIsAlnum (c : Char) : Bool := c.isAlphanum

/-- The per-character rule of `sanitize_filename`:
`c if c.isalnum() or c in " _-" else "_"`. -/
def sanitizeChar (c : Char) : Char :=
  if pyIsAlnum c || c == ' ' || c == '_' || c == '-' then c else '_'

/-- `sanitize_filename` (txt_export.py lines 13-15): keep alphanumerics
and the characters of `" _-"`, replace everything else by `'_'`. -/
def sanitize_filename (filename : Str) : Str :=
  filename.map sanitizeChar

/- ### Concrete fixtures -/

/-- A small well-formed message store: one one-on-one chat with one
incoming message. -/
def dbW : Db :=
  { chat := [{ chat_id := 1, jid_row_id := 1, subject := none }],
    message := [{ msg_id := 1, chat_row_id := 1, from_me := 0, timestamp := 60000,
                  received_timestamp := 60000, text_data := some (("hi").toList),
                  sender_jid_row_id := some 1 }],
    jid := [{ jid_id := 1, user := ("3331234567").toList,
              server := ("s.whatsapp.net").toList }] }

/-- Both files present (empty contact book). -/
def envW : Env := { msgstore := some dbW, contacts_vcf := some [] }

/-- Message store absent. -/
def envC3 : Env := { msgstore := none, contacts_vcf := some [] }

/-- Contact book absent, message store present. -/
def envC4 : Env := { msgstore := some dbW, contacts_vcf := none }

/-- A store with one group chat and one sent message that carries no
sender identity: the fallback map contains no entry for a group chat. -/
def dbC2 : Db :=
  { chat := [{ chat_id := 1, jid_row_id := 1, subject := some (("Team").toList) }],
    message := [{ msg_id := 1, chat_row_id := 1, from_me := 1, timestamp := 0,
                  received_timestamp := 0, text_data := some (("yo").toList),
                  sender_jid_row_id := none }],
    jid := [{ jid_id := 1, user := ("12345").toList, server := ("g.us").toList }] }

/-- Environment for the C2 counterexample. -/
def envC2 : Env := { msgstore := some dbC2, contacts_vcf := some [] }

/-- A canonical row template used by analytics fixtures. -/
def mkFixtureRow (ts : Int) : CanonRow :=
  { msg_id := 0, chat_row_id := 1, user := none, display_name := some (("x").toList),
    group := none, from_me := 1, text_data := some (("hi").toList), timestamp := ts,
    datetime := ts, sender_jid_row_id := none, jid_id_joined := none, server := none }

/-- One message on calendar day 100. -/
def rowsC5 : List CanonRow := [mkFixtureRow (100 * 86400000)]

/-- 35 messages, 5 per day on 7 consecutive calendar days (day 0-6). -/
def rowsC8 : List CanonRow :=
  (List.range 35).map (fun n => mkFixtureRow ((n : Int) * 17280000))

/-- A one-on-one chat: incoming message at minute 0, reply 5 minutes
later. -/
def rowC9a : CanonRow :=
  { msg_id := 1, chat_row_id := 1, user := some (("333").toList),
    display_name := some (("A").toList), group := none, from_me := 0,
    text_data := some (("q").toList), timestamp := 0, datetime := 0,
    sender_jid_row_id := some 1, jid_id_joined := some 1,
    server := some (("s.whatsapp.net").toList) }

/-- The reply message of the C9 fixture. -/
def rowC9b : CanonRow :=
  { msg_id := 2, chat_row_id := 1, user := none,
    display_name := some (("A").toList), group := none, from_me := 1,
    text_data := some (("a").toList), timestamp := 300000, datetime := 300000,
    sender_jid_row_id := none, jid_id_joined := none, server := none }

/-- The two-message conversation for the C9 witness. -/
def rowsC9 : List CanonRow := [rowC9a, rowC9b]

/-- The emitted (row, delta) pair of the C9 witness. -/
def rvC9 : CanonRow × Int := (rowC9b, 300000)

/-- The table of a successful pipeline run (the empty table for an
error result); used to state concrete facts about `Except.ok` payloads. -/
def okRows (e : Except String (List CanonRow)) : List CanonRow :=
  match e with
  | Except.ok rows => rows
  | Except.error _ => []

/-- The single canonical row the pipeline produces on `envW`: the
sender's raw phone `3331234567` has 10 digits, so its normalized key is
`393331234567`; the contact book is empty, so the display name falls
back to the raw user string. -/
def rowW : CanonRow :=
  { msg_id := 1, chat_row_id := 1, user := some (("3331234567").toList),
    display_name := some (("3331234567").toList), group := none, from_me := 0,
    text_data := some (("hi").toList), timestamp := 60000, datetime := 60000,
    sender_jid_row_id := some 1, jid_id_joined := some 1,
    server := some (("s.whatsapp.net").toList) }

/- ### List lemmas used for the phone-normalizer claims -/

theorem dropWhile_dropWhile (p : α → Bool) (l : List α) :
    (l.dropWhile p).dropWhile p = l.dropWhile p := by
  induction l with
  | nil => simp
  | cons a t ih =>
    by_cases h : p a
    · simp [List.dropWhile_cons, h, ih]
    · simp [List.dropWhile_cons, h]

theorem head_false_of_dropWhile_self {p : α → Bool} {c : α} {t : List α}
    (hfix : List.dropWhile p (c :: t) = c :: t) : p c = false := by
  by_cases h : p c
  · exfalso
    rw [List.dropWhile_cons_of_pos h] at hfix
    have hle : (t.dropWhile p).length ≤ t.length := (List.dropWhile_sublist p).length_le
    rw [hfix] at hle
    simp at hle
  · simp [h]

/-- A list with no leading `p`-element stays a `dropWhile p` fixed point
when a suffix is cut off. -/
theorem dropWhile_self_of_append {p : α → Bool} {l m : List α}
    (h : List.dropWhile p (l ++ m) = l ++ m) : List.dropWhile p l = l := by
  cases l with
  | nil => simp
  | cons c cs =>
    have hc : p c = false := by
      by_cases hp : p c
      · exfalso
        rw [List.cons_append, List.dropWhile_cons_of_pos hp] at h
        have hle : (List.dropWhile p (cs ++ m)).length ≤ (cs ++ m).length :=
          (List.dropWhile_sublist p).length_le
        rw [h] at hle
        simp at hle
      · simpa using hp
    rw [List.dropWhile_cons_of_neg (by simp [hc])]

theorem mem_of_mem_pyStrip {s : Str} {c : Char} (h : c ∈ pyStrip s) : c ∈ s := by
  unfold pyStrip at h
  rw [List.mem_reverse] at h
  have h2 := (List.dropWhile_sublist pyIsSpace).subset h
  rw [List.mem_reverse] at h2
  exact (List.dropWhile_sublist pyIsSpace).subset h2

theorem pyStrip_length_le (s : Str) : (pyStrip s).length ≤ s.length := by
  unfold pyStrip
  rw [List.length_reverse]
  calc ((s.dropWhile pyIsSpace).reverse.dropWhile pyIsSpace).length
      ≤ (s.dropWhile pyIsSpace).reverse.length := (List.dropWhile_sublist pyIsSpace).length_le
    _ = (s.dropWhile pyIsSpace).length := List.length_reverse _
    _ ≤ s.length := (List.dropWhile_sublist pyIsSpace).length_le

/-- The `dropWhile` stage of `pyStrip` decomposes the whole string. -/
theorem dropWhile_eq_pyStrip_append (s : Str) :
    s.dropWhile pyIsSpace =
      pyStrip s ++ ((s.dropWhile pyIsSpace).reverse.takeWhile pyIsSpace).reverse := by
  refine Eq.symm ?_
  calc pyStrip s ++ ((s.dropWhile pyIsSpace).reverse.takeWhile pyIsSpace).reverse
      = ((s.dropWhile pyIsSpace).reverse.takeWhile pyIsSpace ++
          (s.dropWhile pyIsSpace).reverse.dropWhile pyIsSpace).reverse := by
        rw [List.reverse_append]
        rfl
    _ = (s.dropWhile pyIsSpace).reverse.reverse := by
        rw [List.takeWhile_append_dropWhile]
    _ = s.dropWhile pyIsSpace := List.reverse_reverse _

/-- The result of `pyStrip` has no leading whitespace. -/
theorem dropWhile_pyStrip (s : Str) :
    (pyStrip s).dropWhile pyIsSpace = pyStrip s := by
  have hfix : (s.dropWhile pyIsSpace).dropWhile pyIsSpace = s.dropWhile pyIsSpace :=
    dropWhile_dropWhile _ _
  have h2 : List.dropWhile pyIsSpace
      (pyStrip s ++ ((s.dropWhile pyIsSpace).reverse.takeWhile pyIsSpace).reverse) =
      pyStrip s ++ ((s.dropWhile pyIsSpace).reverse.takeWhile pyIsSpace).reverse := by
    rw [← dropWhile_eq_pyStrip_append]
    exact hfix
  exact dropWhile_self_of_append h2

/-- The result of `pyStrip` has no trailing whitespace. -/
theorem dropWhile_reverse_pyStrip (s : Str) :
    (pyStrip s).reverse.dropWhile pyIsSpace = (pyStrip s).reverse := by
  unfold pyStrip
  rw [List.reverse_reverse]
  exact dropWhile_dropWhile _ _

theorem pyStrip_idem (s : Str) : pyStrip (pyStrip s) = pyStrip s := by
  show (((pyStrip s).dropWhile pyIsSpace).reverse.dropWhile pyIsSpace).reverse = pyStrip s
  rw [dropWhile_pyStrip, dropWhile_reverse_pyStrip, List.reverse_reverse]

theorem mem_stripPM {s : Str} {c : Char}
    (h : c ∈ stripPM s) : (!(c == '+') && !(c == '-')) = true :=
  (List.mem_filter.mp h).2

theorem stripPM_eq_self {s : Str}
    (h : ∀ c ∈ s, (!(c == '+') && !(c == '-')) = true) : stripPM s = s :=
  List.filter_eq_self.mpr h

theorem stripPM_length_le (s : Str) : (stripPM s).length ≤ s.length :=
  List.length_filter_le _ _

/- ### Facts about normalize_phone -/

theorem normalize_phone_def (q : Str) :
    normalize_phone q =
      if (pyStrip (stripPM q)).length = 10
      then '3' :: '9' :: pyStrip (stripPM q)
      else pyStrip (stripPM q) := rfl

theorem mem_normalize_phone {p : Str} {c : Char} (h : c ∈ normalize_phone p) :
    c = '3' ∨ c = '9' ∨ c ∈ pyStrip (stripPM p) := by
  rw [normalize_phone_def] at h
  by_cases h10 : (pyStrip (stripPM p)).length = 10
  · rw [if_pos h10, List.mem_cons, List.mem_cons] at h
    exact h
  · rw [if_neg h10] at h
    right; right; exact h

theorem normalize_phone_noPM (p : Str) :
    ∀ c ∈ normalize_phone p, (!(c == '+') && !(c == '-')) = true := by
  intro c hc
  rcases mem_normalize_phone hc with h | h | h
  · subst h; decide
  · subst h; decide
  · exact mem_stripPM (mem_of_mem_pyStrip h)

theorem stripPM_normalize (p : Str) :
    stripPM (normalize_phone p) = normalize_phone p :=
  stripPM_eq_self (normalize_phone_noPM p)

theorem pyStrip_normalize (p : Str) :
    pyStrip (normalize_phone p) = normalize_phone p := by
  rw [normalize_phone_def]
  by_cases h10 : (pyStrip (stripPM p)).length = 10
  · rw [if_pos h10]
    have hne : pyStrip (stripPM p) ≠ [] := by
      intro hnil
      rw [hnil] at h10
      simp at h10
    have hrv : (pyStrip (stripPM p)).reverse.dropWhile pyIsSpace =
        (pyStrip (stripPM p)).reverse := dropWhile_reverse_pyStrip (stripPM p)
    cases hcase : (pyStrip (stripPM p)).reverse with
    | nil =>
      exfalso
      apply hne
      have := congrArg List.reverse hcase
      simpa using this
    | cons c cs =>
      rw [hcase] at hrv
      have hc : pyIsSpace c = false := head_false_of_dropWhile_self hrv
      show (((('3' : Char) :: '9' :: pyStrip (stripPM p)).dropWhile pyIsSpace).reverse.dropWhile
          pyIsSpace).reverse = ('3' : Char) :: '9' :: pyStrip (stripPM p)
      rw [List.dropWhile_cons_of_neg (by decide), List.reverse_cons, List.reverse_cons, hcase]
      rw [List.append_assoc]
      have hstep : List.dropWhile pyIsSpace (c :: (cs ++ (['9'] ++ ['3']))) =
          c :: (cs ++ (['9'] ++ ['3']))  := List.dropWhile_cons_of_neg (by simp [hc])
      rw [List.cons_append, hstep]
      rw [← List.cons_append, ← hcase]
      rw [List.reverse_append, List.reverse_reverse]
      rfl
  · rw [if_neg h10]
    exact pyStrip_idem _

theorem normalize_phone_length_ne (p : Str) : (normalize_phone p).length ≠ 10 := by
  rw [normalize_phone_def]
  by_cases h10 : (pyStrip (stripPM p)).length = 10
  · rw [if_pos h10]
    simp [h10]
  · rw [if_neg h10]
    exact h10

/- ### Join cardinality lemmas -/

/-- At most one list element satisfies a predicate that pins down a key,
when the keys are pairwise distinct. -/
theorem filter_len_le_one_of_key {β : Type} (rs : List β) (p : β → Bool) (k : β → Int)
    (hn : (rs.map k).Nodup)
    (hp : ∀ b ∈ rs, p b = true → ∀ b2 ∈ rs, p b2 = true → k b = k b2) :
    (rs.filter p).length ≤ 1 := by
  induction rs with
  | nil => simp
  | cons b bs ih =>
    rw [List.map_cons, List.nodup_cons] at hn
    by_cases hb : p b
    · rw [List.filter_cons_of_pos hb]
      have hnil : bs.filter p = [] := by
        rw [List.filter_eq_nil_iff]
        intro x hx hpx
        have hk : k x = k b :=
          hp x (List.mem_cons_of_mem _ hx) hpx b (List.mem_cons_self _ _) hb
        exact hn.1 (hk ▸ List.mem_map_of_mem k hx)
      rw [hnil]
      simp
    · rw [List.filter_cons_of_neg hb]
      exact ih hn.2 (fun x hx hpx y hy hpy =>
        hp x (List.mem_cons_of_mem _ hx) hpx y (List.mem_cons_of_mem _ hy) hpy)

/-- A left join in which every left row has at most one match produces
exactly one output row per left row. -/
theorem leftJoin_length {α β : Type} (ls : List α) (rs : List β) (m : α → β → Bool)
    (h : ∀ a ∈ ls, (rs.filter (m a)).length ≤ 1) :
    (leftJoin ls rs m).length = ls.length := by
  induction ls with
  | nil => rfl
  | cons a t ih =>
    have hblock :
        (let ms := rs.filter (m a)
         if ms.isEmpty then [(a, (none : Option β))]
         else ms.map (fun b => (a, some b))).length = 1 := by
      cases hms : rs.filter (m a) with
      | nil => simp [hms]
      | cons x xs =>
        have hle := h a (List.mem_cons_self a t)
        rw [hms] at hle
        simp only [List.length_cons] at hle
        have hxs : xs = [] := by
          rw [← List.length_eq_zero]
          omega
        subst hxs
        simp [hms]
    show ((let ms := rs.filter (m a)
           if ms.isEmpty then [(a, (none : Option β))]
           else ms.map (fun b => (a, some b))) ++ leftJoin t rs m).length = t.length + 1
    rw [List.length_append, hblock, ih (fun x hx => h x (List.mem_cons_of_mem _ hx))]
    omega

/-- The enrichment joins of the pipeline add columns, never rows:
under unique join keys the canonical table has one row per message. -/
theorem build_rows_length (db : Db) (cm : List (Str × Str)) (lk : List LookupRow)
    (hj : (db.jid.map JidRow.jid_id).Nodup)
    (hc : (db.chat.map ChatRow.chat_id).Nodup) :
    (build_rows db cm lk).length = db.message.length := by
  unfold build_rows
  rw [List.length_map]
  have h1 : (leftJoin db.message db.jid
      (fun m j => m.sender_jid_row_id == some j.jid_id)).length = db.message.length := by
    apply leftJoin_length
    intro a ha
    apply filter_len_le_one_of_key db.jid _ JidRow.jid_id hj
    intro b hb hpb b2 hb2 hpb2
    have e1 : a.sender_jid_row_id = some b.jid_id := by simpa using hpb
    have e2 : a.sender_jid_row_id = some b2.jid_id := by simpa using hpb2
    exact Option.some.inj (e1.symm.trans e2)
  have h2 : (leftJoin
      (leftJoin db.message db.jid (fun m j => m.sender_jid_row_id == some j.jid_id))
      db.chat (fun r c => r.1.chat_row_id == c.chat_id)).length =
      (leftJoin db.message db.jid
        (fun m j => m.sender_jid_row_id == some j.jid_id)).length := by
    apply leftJoin_length
    intro a ha
    apply filter_len_le_one_of_key db.chat _ ChatRow.chat_id hc
    intro b hb hpb b2 hb2 hpb2
    have e1 : a.1.chat_row_id = b.chat_id := by simpa using hpb
    have e2 : a.1.chat_row_id = b2.chat_id := by simpa using hpb2
    exact e1.symm.trans e2
  rw [h2, h1]

/- ### Claim theorems -/

/-- Claim C1, counterexample: `normalize_phone` does not truncate to the
last 10 characters — on the 10-character input `"1234567890"` it
prepends `"39"` and returns 12 characters, so `len ≤ 10` fails. -/
theorem C1_counterexample :
    ¬ ((normalize_phone (("1234567890").toList)).length ≤ 10) := by decide

/-- Claim C1, amended: `normalize_phone` strips every `'+'` and `'-'`
and the surrounding whitespace but never truncates; when the stripped
result has exactly 10 characters it prepends the country code `"39"`.
Hence the output contains no `'+'` or `'-'`, its length is at most
`len(p) + 2`, and it is never exactly 10. -/
theorem C1_amended (p : Str) :
    ('+' ∉ normalize_phone p) ∧ ('-' ∉ normalize_phone p) ∧
    (normalize_phone p).length ≤ p.length + 2 ∧ (normalize_phone p).length ≠ 10 := by
  refine ⟨?_, ?_, ?_, normalize_phone_length_ne p⟩
  · intro h
    have hpm := normalize_phone_noPM p '+' h
    simp at hpm
  · intro h
    have hpm := normalize_phone_noPM p '-' h
    simp at hpm
  · rw [normalize_phone_def]
    have hle : (pyStrip (stripPM p)).length ≤ p.length :=
      (pyStrip_length_le _).trans (stripPM_length_le p)
    by_cases h10 : (pyStrip (stripPM p)).length = 10
    · rw [if_pos h10]
      simp only [List.length_cons]
      omega
    · rw [if_neg h10]
      omega

/-- Claim C7: phone normalization is idempotent — normalizing an
already-normalized key returns the same key. -/
theorem C7_normalize_phone_idempotent (p : Str) :
    normalize_phone (normalize_phone p) = normalize_phone p := by
  rw [normalize_phone_def (normalize_phone p), stripPM_normalize, pyStrip_normalize,
    if_neg (normalize_phone_length_ne p)]

/-- Claim C3, counterexample: with `msgstore.db` absent the pipeline
raises the sqlite missing-table error (`sqlite3.connect` silently
creates an empty database file and `SELECT * FROM chat` then fails);
it is not a "data source not found" condition. -/
theorem C3_counterexample :
    load_whatsapp_data envC3 = Except.error ("no such table: chat") ∧
    ("no such table: chat" : String) ≠ ("data source not found" : String) :=
  ⟨rfl, by decide⟩

/-- Claim C3, amended: when the message store file is absent,
`load_whatsapp_data` fails on its very first table read — before any
join is computed — with the missing-table database error, and returns no
rows at all. -/
theorem C3_amended (env : Env) (h : env.msgstore = none) :
    load_whatsapp_data env = Except.error ("no such table: chat") := by
  cases env with
  | mk ms vcf =>
    simp only at h
    subst h
    rfl

/-- Witness for `C3_amended` at the concrete environment `envC3`. -/
theorem C3_witness :
    load_whatsapp_data envC3 = Except.error ("no such table: chat") :=
  C3_amended envC3 rfl

/-- Claim C4 (code bug): with `contacts.vcf` absent, `load_contacts`
does return the empty mapping, but the pipeline nevertheless fails,
because `load_whatsapp_data` calls `lookup_table()` (data_load.py line
111) which opens `contacts.vcf` unconditionally (line 52) and raises
`FileNotFoundError` — contradicting the guarded fallback that
`load_contacts` (lines 39-47) was written to provide. -/
theorem C4_code_bug :
    load_contacts envC4 = [] ∧
    load_whatsapp_data envC4 = Except.error ("FileNotFoundError: contacts.vcf") :=
  ⟨rfl, rfl⟩

/-- Claim C5 (code bug): on a date range that filters out every message
the analytics do raise instead of reporting a degenerate result: the
peak-hour statistic (app.py line 223) and the longest-message statistic
(app.py line 421) both call `idxmax` on an empty series, which raises
`ValueError`. -/
theorem C5_code_bug :
    load_data_filter rowsC5 200 300 = [] ∧
    peak_hour (load_data_filter rowsC5 200 300) =
      Except.error ("attempt to get argmax of an empty sequence") ∧
    max_msg (load_data_filter rowsC5 200 300) =
      Except.error ("attempt to get argmax of an empty sequence") :=
  ⟨by decide, rfl, rfl⟩

/-- Claim C6: when `jid._id` and `chat._id` are unique keys, the
canonical table returned by `load_whatsapp_data` has exactly one row per
source message — the enrichment joins drop and duplicate nothing. -/
theorem C6_row_count (env : Env) (db : Db) (rows : List CanonRow)
    (hdb : env.msgstore = some db)
    (hj : (db.jid.map JidRow.jid_id).Nodup)
    (hc : (db.chat.map ChatRow.chat_id).Nodup)
    (hok : load_whatsapp_data env = Except.ok rows) :
    rows.length = db.message.length := by
  cases env with
  | mk ms vcf =>
    simp only at hdb
    subst hdb
    cases hlt : lookup_table (Env.mk (some db) vcf) with
    | error e =>
      rw [load_whatsapp_data] at hok
      simp only [hlt] at hok
      exact Except.noConfusion hok
    | ok lk =>
      rw [load_whatsapp_data] at hok
      simp only [hlt] at hok
      have hrows : build_rows db (load_contacts (Env.mk (some db) vcf)) lk = rows :=
        Except.ok.inj hok
      rw [← hrows]
      exact build_rows_length db _ lk hj hc

/-- Witness for `C6_row_count` on the concrete store `dbW`. -/
theorem C6_witness :
    (okRows (load_whatsapp_data envW)).length = dbW.message.length :=
  C6_row_count envW dbW (okRows (load_whatsapp_data envW)) rfl (by decide) (by decide) rfl

/-- Claim C2, counterexample: on `envC2` (a group chat whose only
message is sent and carries no sender identity) the produced table
contains a row whose `display_name` is null — `Series.map` yields NaN,
not the empty string, for a chat id absent from the one-on-one fallback
map. -/
theorem C2_counterexample : allDisplayNamesNonNull envC2 = false := by decide

/-- Claim C2, amended: in every table `load_whatsapp_data` returns, a
row carrying a sender identity (`user` non-null) has a non-null
`display_name`, and a null `display_name` can only occur on a row with
no sender identity whose chat id misses the fallback map — there the
value is null, not the empty string.  (`datetime` is non-null throughout:
it is derived from the non-null integer `timestamp` column.) -/
theorem C2_amended (env : Env) (rows : List CanonRow) (r : CanonRow)
    (hok : load_whatsapp_data env = Except.ok rows) (hr : r ∈ rows) :
    (r.user.isSome → r.display_name.isSome) ∧ (r.display_name = none → r.user = none) := by
  cases env with
  | mk ms vcf =>
    cases ms with
    | none =>
      rw [load_whatsapp_data] at hok
      exact Except.noConfusion hok
    | some db =>
      cases hlt : lookup_table (Env.mk (some db) vcf) with
      | error e =>
        rw [load_whatsapp_data] at hok
        simp only [hlt] at hok
        exact Except.noConfusion hok
      | ok lk =>
        rw [load_whatsapp_data] at hok
        simp only [hlt] at hok
        have hrows := Except.ok.inj hok
        rw [← hrows] at hr
        unfold build_rows at hr
        rcases List.mem_map.mp hr with ⟨rc, hrc, hr2⟩
        subst hr2
        cases hjid : rc.1.2 with
        | some j =>
          constructor
          · intro
            simp [mkCanonRow, hjid]
          · intro hdn
            simp [mkCanonRow, hjid] at hdn
        | none =>
          constructor
          · intro hu
            simp [mkCanonRow, hjid] at hu
          · intro
            simp [mkCanonRow, hjid]

/-- Witness for `C2_amended`: the concrete run on `envW` and its single
row `rowW`. -/
theorem C2_witness :
    (rowW.user.isSome → rowW.display_name.isSome) ∧
    (rowW.display_name = none → rowW.user = none) :=
  C2_amended envW (okRows (load_whatsapp_data envW)) rowW rfl (by decide)

/-- Claim C8: the moving average is a 7-point trailing window — `none`
(NaN, not a padded value) at every position before the seventh — and on
the fixture of 7 consecutive days with 5 messages each the `ma7` column
is undefined on days 1-6 and `5.0` on day 7. -/
theorem C8_moving_average :
    (∀ (xs : List Nat) (i : Nat), i < 6 → (rolling_mean7 xs).getD i none = none) ∧
    ma7_column rowsC8 = [none, none, none, none, none, none, some 5] := by
  constructor
  · intro xs i h
    rw [List.getD_eq_getElem?_getD]
    unfold rolling_mean7
    rcases Nat.lt_or_ge i xs.length with h2 | h2
    · rw [List.getElem?_map, List.getElem?_range h2]
      have h7 : ¬ (7 ≤ i + 1) := by omega
      rw [Option.map_some', Option.getD_some, if_neg h7]
    · rw [List.getElem?_map]
      have : (List.range xs.length)[i]? = none := by
        rw [List.getElem?_eq_none_iff]
        simpa using h2
      rw [this]
      rfl
  · have hdc : (daily_counts rowsC8).map (fun p => p.2) = [5, 5, 5, 5, 5, 5, 5] := by
      decide
    unfold ma7_column
    rw [hdc]
    unfold rolling_mean7
    norm_num [List.range_succ]

/-- Witness for the windowing half of `C8_moving_average` at a concrete
position and input. -/
theorem C8_witness :
    (rolling_mean7 [5, 5, 5, 5, 5, 5, 5]).getD 2 none = none :=
  C8_moving_average.1 [5, 5, 5, 5, 5, 5, 5] 2 (by decide)

/-- Claim C9: every pair emitted by the response-time analysis comes
from a message paired (by `with_prev`, i.e. `groupby.shift(1)` after
sorting by chat and timestamp) with the immediately preceding message of
the same chat, the two directions differ, the value is exactly the
timestamp delta, and in minutes it lies in `(0, 1440]`. -/
theorem C9_response_filter (rows : List CanonRow) (rv : CanonRow × Int)
    (h : rv ∈ response_analysis rows) :
    (0 < ((rv.2 : ℚ) / 60000) ∧ ((rv.2 : ℚ) / 60000) ≤ 1440) ∧
    ∃ pr ∈ with_prev (sort_chat_ts (rows.filter (fun r => r.group.isNone))) none,
      pr.1 = rv.1 ∧ ∃ p, pr.2 = some p ∧ rv.1.from_me ≠ p.from_me ∧
        rv.2 = rv.1.timestamp - p.timestamp := by
  unfold response_analysis at h
  rcases List.mem_filter.mp h with ⟨hmem, hcond⟩
  rw [Bool.and_eq_true, decide_eq_true_iff, decide_eq_true_iff] at hcond
  rcases List.mem_filterMap.mp hmem with ⟨pr, hpr, hg⟩
  rcases Option.map_eq_some'.mp hg with ⟨v, hv, hrv⟩
  constructor
  · constructor
    · apply div_pos
      · exact_mod_cast hcond.1
      · norm_num
    · rw [div_le_iff₀ (by norm_num : (0 : ℚ) < 60000)]
      have h2 : ((rv.2 : ℚ)) ≤ ((1440 * 60000 : Int) : ℚ) := by
        exact_mod_cast hcond.2
      calc ((rv.2 : ℚ)) ≤ ((1440 * 60000 : Int) : ℚ) := h2
        _ = 1440 * 60000 := by norm_num
  · refine ⟨pr, hpr, ?_, ?_⟩
    · rw [← hrv]
    · unfold response_time_delta at hv
      split at hv
      · rename_i p heq
        split at hv
        · rename_i hne
          refine ⟨p, heq, ?_, ?_⟩
          · rw [← hrv]
            exact hne
          · rw [← hrv]
            exact (Option.some.inj hv).symm
        · exact Option.noConfusion hv
      · exact Option.noConfusion hv

/-- Witness for `C9_response_filter`: the concrete two-message chat
`rowsC9`, whose reply 5 minutes after the incoming message is emitted
with delta 300000 ms. -/
theorem C9_witness :
    (0 < ((rvC9.2 : ℚ) / 60000) ∧ ((rvC9.2 : ℚ) / 60000) ≤ 1440) ∧
    ∃ pr ∈ with_prev (sort_chat_ts (rowsC9.filter (fun r => r.group.isNone))) none,
      pr.1 = rvC9.1 ∧ ∃ p, pr.2 = some p ∧ rvC9.1.from_me ≠ p.from_me ∧
        rvC9.2 = rvC9.1.timestamp - p.timestamp :=
  C9_response_filter rowsC9 rvC9 (by decide)

/-- Claim C10: `sanitize_filename` maps each character independently, so
it preserves length; every output character is alphanumeric or one of
space, underscore, hyphen; and the function is idempotent. -/
theorem C10_sanitize_filename (s : Str) :
    (sanitize_filename s).length = s.length ∧
    (∀ c ∈ sanitize_filename s,
      (pyIsAlnum c || c == ' ' || c == '_' || c == '-') = true) ∧
    sanitize_filename (sanitize_filename s) = sanitize_filename s := by
  refine ⟨List.length_map s sanitizeChar, ?_, ?_⟩
  · intro c hc
    rcases List.mem_map.mp hc with ⟨c0, hc0, hmap⟩
    subst hmap
    unfold sanitizeChar
    by_cases h : (pyIsAlnum c0 || c0 == ' ' || c0 == '_' || c0 == '-') = true
    · rw [if_pos h]
      exact h
    · rw [if_neg h]
      decide
  · show (s.map sanitizeChar).map sanitizeChar = s.map sanitizeChar
    rw [List.map_map]
    apply List.map_congr_left
    intro c hc
    show sanitizeChar (sanitizeChar c) = sanitizeChar c
    by_cases h : (pyIsAlnum c || c == ' ' || c == '_' || c == '-') = true
    · unfold sanitizeChar
      rw [if_pos h, if_pos h]
    · unfold sanitizeChar
      rw [if_neg h]
      decide

/-- Witness for `C1_amended` at a concrete phone string. -/
theorem C1_witness :
    (normalize_phone (("+39 333-123-4567").toList)).length ≤
      (("+39 333-123-4567").toList).length + 2 :=
  (C1_amended (("+39 333-123-4567").toList)).2.2.1

/-- Witness for `C7_normalize_phone_idempotent` at a concrete phone
string. -/
theorem C7_witness :
    normalize_phone (normalize_phone (("+1-555-0100").toList)) =
      normalize_phone (("+1-555-0100").toList) :=
  C7_normalize_phone_idempotent (("+1-555-0100").toList)

/-- Witness for `C10_sanitize_filename` at the concrete name
`"Team/Chat"` and its output character `'T'`. -/
theorem C10_witness :
    (pyIsAlnum 'T' || 'T' == ' ' || 'T' == '_' || 'T' == '-') = true :=
  (C10_sanitize_filename (("Team/Chat").toList)).2.1 'T' (by decide)
